import Mathlib

/-!
Shallow embedding of `pool_controller.py` (Pentair pool controller client).

The serial byte stream is modelled as a `List Nat` of byte values; reading from
the port consumes a prefix of the list, and a read that would block forever on
a finite stream is modelled as `none`.  Loops that wait on the bus
(`read_status`'s packet loop) take an explicit fuel parameter.  Wall-clock time
in `send_command` is modelled by the single elapsed-seconds value the code
reads after its confirmation loop.  Python values compared with `==` in
`send_command` (which may be strings, ints or bools) are modelled by `PyVal`
with Python's cross-type equality semantics.  Python `IndexError` / `KeyError`
and the raised timeout `AssertionError` are modelled with `Except String`.
-/

namespace Pentair

/-- Class constant `PentairCom.Ctrl.MAIN` (0x10). -/
def Ctrl.MAIN : Nat := 0x10
/-- Class constant `PentairCom.Ctrl.REMOTE` (0x20). -/
def Ctrl.REMOTE : Nat := 0x20
/-- Class constant `PentairCom.Ctrl.PUMP1` (0x60). -/
def Ctrl.PUMP1 : Nat := 0x60
/-- Class constant `PentairCom.Ctrl.BROADCAST` (0x0f). -/
def Ctrl.BROADCAST : Nat := 0x0f

/-- A controller identity as stored by `read_status`: either a name from the
`Controller` dictionary or the raw unknown byte. -/
inductive CtrlName where
  | known (s : String)
  | raw (n : Nat)
deriving DecidableEq, Repr

/-- Lookup in the `Controller` dictionary with fall-through to the raw byte,
as in lines 174-183 of the source. -/
def resolve (n : Nat) : CtrlName :=
  if n = Ctrl.MAIN then .known "Main"
  else if n = Ctrl.REMOTE then .known "Remote"
  else if n = Ctrl.PUMP1 then .known "Pump1"
  else if n = Ctrl.BROADCAST then .known "Broadcast"
  else .raw n

/-- The `state` dictionary `{0: "off", 1: "on"}`; only ever applied to the
binary digits 0 and 1. -/
def state (n : Nat) : String := if n = 1 then "on" else "off"

/-- The 8 binary digits of a byte, most significant first: the embedding of
`"{0:08b}".format(b)` followed by single-character slicing and `int`, for
byte values `b < 256`. -/
def bin8 (n : Nat) : List Nat :=
  [n / 2 ^ 7 % 2, n / 2 ^ 6 % 2, n / 2 ^ 5 % 2, n / 2 ^ 4 % 2,
   n / 2 ^ 3 % 2, n / 2 ^ 2 % 2, n / 2 ^ 1 % 2, n / 2 ^ 0 % 2]

/-- A Python value that can appear as the `state` argument of `send_command`. -/
inductive PyVal where
  | str (s : String)
  | int (n : Int)
  | bool (b : Bool)
deriving DecidableEq, Repr

/-- Python `==` on `PyVal`: values of unrelated types compare unequal,
`True`/`False` compare equal to `1`/`0` (bool is an int subclass). -/
def pyEq : PyVal → PyVal → Bool
  | .str a, .str b => a == b
  | .int a, .int b => a == b
  | .bool a, .bool b => a == b
  | .bool a, .int b => (if a then (1 : Int) else 0) == b
  | .int a, .bool b => a == (if b then (1 : Int) else 0)
  | _, _ => false

/-- Python list indexing `l[i]` for a non-negative index: out of range raises
`IndexError`. -/
def pyIndex (l : List Nat) (i : Nat) : Except String Nat :=
  match l.get? i with
  | some v => .ok v
  | none => .error "IndexError"

/-! ## Frame reader (`get_packet`, lines 100-119) -/

/-- The synchronisation loop of `get_packet` (lines 104-107): slide a 4-byte
window over the stream until it equals `[255, 0, 255, 165]`; return the
remaining stream.  `none` models blocking forever on a finite stream. -/
def findSync : List Nat → List Nat → Option (List Nat)
  | _, [] => none
  | window, b :: rest =>
    let w := window.drop 1 ++ [b]
    if w = [255, 0, 255, 165] then some rest else findSync w rest

/-- Serial read `port.read(n)`: consume exactly `n` bytes of the stream (blocks — `none` —
if the stream is too short). -/
def takeExact (n : Nat) (s : List Nat) : Option (List Nat × List Nat) :=
  if n ≤ s.length then some (s.take n, s.drop n) else none

/-- The checksum recomputed by `get_packet` (line 113): `sum(packet)`. -/
def packet_checksum (packet : List Nat) : Nat := packet.sum

/-- Method `PentairCom.get_packet`: synchronise, read the 5 header bytes, read
`packet[-1]` payload bytes, read the 2 big-endian checksum bytes, and return
the assembled packet, or `[]` if the recomputed checksum differs (lines
108-119).  Also returns the remaining stream. -/
def get_packet (stream : List Nat) : Option (List Nat × List Nat) :=
  match findSync [0, 0, 0, 0] stream with
  | none => none
  | some s1 =>
    match takeExact 5 s1 with
    | none => none
    | some (hdr, s2) =>
      let packet := 165 :: hdr
      match takeExact (packet.getLastD 0) s2 with
      | none => none
      | some (payload, s3) =>
        let packet := packet ++ payload
        match s3 with
        | c1 :: c2 :: s4 =>
          let checksum := c1 * 256 + c2
          if packet_checksum packet ≠ checksum then some ([], s4)
          else some (packet, s4)
        | _ => none

/-! ## Status snapshot and decoder (`read_status`, lines 161-219) -/

/-- The `self.status` dictionary: every key the program ever writes, `none`
meaning the key is absent. -/
structure Status where
  pump_watts : Option Nat := none
  pump_rpm : Option Nat := none
  last_update : Option Nat := none
  source : Option CtrlName := none
  destination : Option CtrlName := none
  time : Option (Nat × Nat) := none
  spillway : Option String := none
  pool : Option String := none
  spa : Option String := none
  air_blower : Option String := none
  pool_light : Option String := none
  spa_light : Option String := none
  cleaner : Option String := none
  water_feature : Option String := none
  aux : Option String := none
  water_temp : Option Nat := none
  air_temp : Option Nat := none
deriving DecidableEq, Repr

/-- The empty dictionary `self.status = {}` set by `__init__`. -/
def Status.empty : Status := {}

/-- Class attribute `Equip1 = 8`. -/
def Equip1 : Nat := 8
/-- Class attribute `Equip2 = 9`. -/
def Equip2 : Nat := 9
/-- Class attribute `WaterTemp = 20`. -/
def WaterTemp : Nat := 20
/-- Class attribute `AirTemp = 24`. -/
def AirTemp : Nat := 24
/-- Class attribute `timeout = 5` (seconds). -/
def timeout : Nat := 5

/-- Lines 215-216: `if len(packet) >= self.AirTemp: status['air_temp'] =
int(packet[self.AirTemp])`. -/
def decode_air (packet : List Nat) (st : Status) : Except String Status :=
  if AirTemp ≤ packet.length then
    match pyIndex packet AirTemp with
    | .error e => .error e
    | .ok a => .ok { st with air_temp := some a }
  else .ok st

/-- Lines 213-216: the water-temperature guard and read followed by the
air-temperature guard and read. -/
def decode_temps (packet : List Nat) (st : Status) : Except String Status :=
  if WaterTemp ≤ packet.length then
    match pyIndex packet WaterTemp with
    | .error e => .error e
    | .ok w => decode_air packet { st with water_temp := some w }
  else decode_air packet st

/-- Lines 196-216 of `read_status`: after the packet loop, decode the
equipment bitfields, clock and temperatures into the status dictionary when
the declared payload length `packet[5]` exceeds 8. -/
def read_status_decode (now : Nat) (srcC dstC : Option CtrlName)
    (packet : List Nat) (st : Status) : Except String Status :=
  if packet.getD 5 0 > 8 then
    match pyIndex packet Equip1, pyIndex packet Equip2,
          pyIndex packet 6, pyIndex packet 7 with
    | .ok e1, .ok e2, .ok h, .ok m =>
      decode_temps packet
        { st with
          last_update := some now
          source := srcC
          destination := dstC
          time := some (h, m)
          spillway := some (state ((bin8 e1).getD 0 0))
          pool := some (state ((bin8 e1).getD 2 0))
          spa := some (state ((bin8 e1).getD 7 0))
          air_blower := some (state ((bin8 e1).getD 5 0))
          pool_light := some (state ((bin8 e1).getD 3 0))
          spa_light := some (state ((bin8 e1).getD 4 0))
          cleaner := some (state ((bin8 e1).getD 6 0))
          water_feature := some (state ((bin8 e1).getD 1 0))
          aux := some (state ((bin8 e2).getD 7 0)) }
    | .error e, _, _, _ => .error e
    | _, .error e, _, _ => .error e
    | _, _, .error e, _ => .error e
    | _, _, _, .error e => .error e
  else .ok st

/-- The packet loop of `read_status` (lines 165-194): repeatedly obtain a
packet; for packets longer than 3 bytes resolve source/destination, merge pump
telemetry when the source is "Pump1" with command byte 7 and total length 21,
and stop on a frame for the broadcast address (or on any long frame when
`controller` is `None`).  Returns the final packet, the resolved
source/destination, the possibly-updated status and the remaining stream. -/
def read_status_loop :
    Nat → Option Nat → Option CtrlName → Option CtrlName → Status → List Nat →
    Option (List Nat × Option CtrlName × Option CtrlName × Status × List Nat)
  | 0, _, _, _, _, _ => none
  | fuel + 1, controller, srcC, dstC, st, stream =>
    match get_packet stream with
    | none => none
    | some (packet, rest) =>
      if packet.length > 3 then
        let dstC' := some (resolve (packet.getD 2 0))
        let srcC' := some (resolve (packet.getD 3 0))
        let st' :=
          if srcC' = some (CtrlName.known "Pump1") ∧ packet.getD 4 0 = 7 ∧
              packet.length = 21 then
            { st with
              pump_watts := some (packet.getD 9 0 * 256 + packet.getD 10 0)
              pump_rpm := some (packet.getD 11 0 * 256 + packet.getD 12 0) }
          else st
        if controller = none ∨ packet.getD 2 0 = Ctrl.BROADCAST then
          some (packet, srcC', dstC', st', rest)
        else read_status_loop fuel controller srcC' dstC' st' rest
      else read_status_loop fuel controller srcC dstC st rest

/-- Method `PentairCom.read_status` (lines 161-219): run the packet loop, decode the
final packet into the status dictionary, and set the `ready` flag (the `Bool`
in the result, always `true` on normal completion, lines 217-218). -/
def read_status (fuel now : Nat) (controller : Option Nat) (st : Status)
    (stream : List Nat) : Option (Except String (Status × Bool × List Nat)) :=
  match read_status_loop fuel controller none none st stream with
  | none => none
  | some (packet, srcC, dstC, st', rest) =>
    match read_status_decode now srcC dstC packet st' with
    | .error e => some (.error e)
    | .ok st'' => some (.ok (st'', true, rest))

/-! ## Command path (`send_command`, lines 127-158) -/

/-- Method `PentairCom.get_feature_name` (lines 121-125): the inverse of the
`FeatureName` dictionary, `none` modelling `KeyError`. -/
def get_feature_name (n : Nat) : Option String :=
  if n = 1 then some "spa"
  else if n = 2 then some "cleaner"
  else if n = 3 then some "air_blower"
  else if n = 4 then some "spa_light"
  else if n = 5 then some "pool_light"
  else if n = 6 then some "pool"
  else if n = 7 then some "water_feature"
  else if n = 8 then some "spillway"
  else if n = 9 then some "aux"
  else none

/-- Lines 135-138: the command packet built by `send_command`, including the
two appended checksum bytes `int(checksum/256)` and `checksum % 256`. -/
def send_command_packet (feature : Nat) (state : PyVal) : List Nat :=
  let packet := [165, 31, Ctrl.MAIN, Ctrl.REMOTE, 134, 2, feature,
                 if pyEq state (.str "on") then 1 else 0]
  packet ++ [packet.sum / 256, packet.sum % 256]

/-- Lines 134 and 140: the bytes actually written, the 2-byte header
`[0x00, 0xff]` followed by the packet. -/
def send_command_wire (feature : Nat) (state : PyVal) : List Nat :=
  [0x00, 0xff] ++ send_command_packet feature state

/-- Python dictionary access `self.status[feature_name]` for the feature keys
`send_command` looks up. -/
def status_get (st : Status) (name : String) : Option String :=
  if name = "spa" then st.spa
  else if name = "cleaner" then st.cleaner
  else if name = "air_blower" then st.air_blower
  else if name = "spa_light" then st.spa_light
  else if name = "pool_light" then st.pool_light
  else if name = "pool" then st.pool
  else if name = "water_feature" then st.water_feature
  else if name = "spillway" then st.spillway
  else if name = "aux" then st.aux
  else none

/-- The confirmation loop of `send_command` (lines 143-151) over the sequence
of snapshots successive `get_status` calls return: while
`status[feature_name] != state and retry`, consume the next snapshot and
decrement `retry`.  A missing key raises `KeyError`; an exhausted snapshot
trace models `get_status` blocking forever (`"starved"`). -/
def confirm_loop (fn : String) (state : PyVal) :
    Status → Nat → List Status → Except String (Status × List Status)
  | st, 0, trace =>
    match status_get st fn with
    | none => .error "KeyError"
    | some _ => .ok (st, trace)
  | st, _ + 1, [] =>
    match status_get st fn with
    | none => .error "KeyError"
    | some v => if pyEq (.str v) state then .ok (st, []) else .error "starved"
  | st, r + 1, st2 :: rest =>
    match status_get st fn with
    | none => .error "KeyError"
    | some v =>
      if pyEq (.str v) state then .ok (st, st2 :: rest)
      else confirm_loop fn state st2 r rest

/-- Method `PentairCom.send_command` (lines 127-158), confirmation and timeout part:
resolve the feature name, run the confirmation loop with a retry budget of 5
over the trace of snapshots `get_status` returns, then raise the timeout
`AssertionError` if the elapsed seconds read after the loop (`tExit`, the
value of `(datetime.datetime.now() - start).total_seconds()` at line 152)
exceed `timeout`; otherwise return the current status. -/
def send_command_model (feature : Nat) (state : PyVal) (trace : List Status)
    (tExit : Nat) : Except String Status :=
  match get_feature_name feature with
  | none => .error "KeyError"
  | some fn =>
    match trace with
    | [] => .error "starved"
    | st0 :: rest =>
      match confirm_loop fn state st0 5 rest with
      | .error e => .error e
      | .ok (st, _) =>
        if tExit > timeout then .error "Timeout" else .ok st

/-! ## Concrete inputs used by witnesses and counterexamples -/

/-- A valid broadcast status frame on the wire: destination `0x0f`
(broadcast), source `0x10` (main), payload length 9, `equip1 = 0b10100001`,
`equip2 = 1`, checksum `415 = 1 * 256 + 159`. -/
def c8good : List Nat :=
  [255, 0, 255, 165, 0, 15, 16, 2, 9, 12, 34, 161, 1, 0, 0, 0, 0, 0, 1, 159]

/-- The status-dictionary update produced by decoding the frame of `c8good`
at time `now` starting from `st`. -/
def c8update (st : Status) (now : Nat) : Status :=
  { st with
    last_update := some now
    source := some (CtrlName.known "Main")
    destination := some (CtrlName.known "Broadcast")
    time := some (12, 34)
    spillway := some "on"
    pool := some "on"
    spa := some "on"
    air_blower := some "off"
    pool_light := some "off"
    spa_light := some "off"
    cleaner := some "off"
    water_feature := some "off"
    aux := some "on" }

/-- A valid broadcast frame with payload length 0 (shorter than the
equipment-status threshold): the packet loop accepts it, nothing is decoded. -/
def c7stream : List Nat := [255, 0, 255, 165, 0, 15, 16, 0, 0, 0, 196]

/-- A validated packet of total length 20 (declared payload length 14): the
guard `len(packet) >= 20` passes, yet index 20 does not exist. -/
def pkt4 : List Nat :=
  [165, 0, 15, 16, 2, 14, 12, 34, 161, 1, 0, 0, 0, 0, 0, 0, 0, 0, 0, 0]

/-- A validated status packet with payload length 9 and
`equip1 = 161 = 0b10100001`, `equip2 = 1`. -/
def pkt5 : List Nat := [165, 0, 15, 16, 2, 9, 12, 34, 161, 1, 0, 0, 0, 0, 0]

/-- The status dictionary `read_status_decode 0 none none pkt5 Status.empty`
produces. -/
def st5 : Status :=
  { last_update := some 0
    time := some (12, 34)
    spillway := some "on"
    pool := some "on"
    spa := some "on"
    air_blower := some "off"
    pool_light := some "off"
    spa_light := some "off"
    cleaner := some "off"
    water_feature := some "off"
    aux := some "on" }

/-- A snapshot with several fields populated, reporting `pool = on`. -/
def st6 : Status :=
  { pool := some "on"
    spa := some "off"
    time := some (12, 0)
    water_temp := some 80
    air_temp := some 75 }

/-- A snapshot whose `pool` key is present but still reports `off`. -/
def st6off : Status :=
  { pool := some "off"
    spa := some "off" }

/-! ## Helper lemmas -/

theorem findSync_marker (t : List Nat) :
    findSync [0, 0, 0, 0] (255 :: 0 :: 255 :: 165 :: t) = some t := rfl

theorem takeExact_append (l t : List Nat) (n : Nat) (h : l.length = n) :
    takeExact n (l ++ t) = some (l, t) := by
  subst h
  simp [takeExact, List.take_left, List.drop_left]

/-- Behaviour of `get_packet` on a stream that begins with the
synchronisation marker followed by a length-consistent frame: the packet is
returned exactly when the transmitted big-endian checksum equals the sum of
all packet bytes (including the reconstructed 165 and the byte before the
destination byte); otherwise `[]` is returned and the frame is dropped. -/
theorem get_packet_spec (hdr payload rest : List Nat) (c1 c2 : Nat)
    (hh : hdr.length = 5) (hp : payload.length = (165 :: hdr).getLastD 0) :
    get_packet (255 :: 0 :: 255 :: 165 :: (hdr ++ (payload ++ c1 :: c2 :: rest))) =
      if (165 :: (hdr ++ payload)).sum = c1 * 256 + c2
      then some (165 :: (hdr ++ payload), rest)
      else some ([], rest) := by
  have h1 := takeExact_append hdr (payload ++ c1 :: c2 :: rest) 5 hh
  have h2 := takeExact_append payload (c1 :: c2 :: rest) _ hp
  simp only [get_packet, findSync_marker, h1, h2, packet_checksum]
  by_cases hc : (165 :: (hdr ++ payload)).sum = c1 * 256 + c2 <;>
    simp [hc, List.cons_append]

theorem pyIndex_ok (l : List Nat) (i v : Nat) (h : pyIndex l i = .ok v) :
    l.getD i 0 = v := by
  unfold pyIndex at h
  cases hg : l.get? i with
  | none => rw [hg] at h; cases h
  | some w =>
    rw [hg] at h
    cases h
    simp [List.getD_eq_getD_get?, ← List.get?_eq_getElem?, hg]

theorem state_div_mod (n k : Nat) :
    state (n / 2 ^ k % 2) = if n.testBit k then "on" else "off" := by
  rw [Nat.testBit_to_div_mod]
  rcases Nat.mod_two_eq_zero_or_one (n / 2 ^ k) with h | h <;> simp [state, h]

theorem decode_air_frame_fields (packet : List Nat) (st st' : Status)
    (h : decode_air packet st = .ok st') :
    st'.spillway = st.spillway ∧ st'.water_feature = st.water_feature ∧
    st'.pool = st.pool ∧ st'.pool_light = st.pool_light ∧
    st'.spa_light = st.spa_light ∧ st'.air_blower = st.air_blower ∧
    st'.cleaner = st.cleaner ∧ st'.spa = st.spa ∧ st'.aux = st.aux := by
  unfold decode_air at h
  split at h
  · split at h
    · cases h
    · cases h
      exact ⟨rfl, rfl, rfl, rfl, rfl, rfl, rfl, rfl, rfl⟩
  · cases h
    exact ⟨rfl, rfl, rfl, rfl, rfl, rfl, rfl, rfl, rfl⟩

theorem decode_temps_frame_fields (packet : List Nat) (st st' : Status)
    (h : decode_temps packet st = .ok st') :
    st'.spillway = st.spillway ∧ st'.water_feature = st.water_feature ∧
    st'.pool = st.pool ∧ st'.pool_light = st.pool_light ∧
    st'.spa_light = st.spa_light ∧ st'.air_blower = st.air_blower ∧
    st'.cleaner = st.cleaner ∧ st'.spa = st.spa ∧ st'.aux = st.aux := by
  unfold decode_temps at h
  split at h
  · split at h
    · cases h
    · have hf := decode_air_frame_fields _ _ _ h
      exact hf
  · exact decode_air_frame_fields _ _ _ h

theorem read_status_loop_drop (fuel : Nat) (controller : Option Nat)
    (srcC dstC : Option CtrlName) (st : Status) (stream rest : List Nat)
    (h : get_packet stream = some ([], rest)) :
    read_status_loop (fuel + 1) controller srcC dstC st stream =
      read_status_loop fuel controller srcC dstC st rest := by
  conv_lhs => unfold read_status_loop
  rw [h]
  rfl

/-- The equipment-bit positions of the rendered 8-bit string, re-expressed as
bit positions of the byte: character `k` of `"{0:08b}".format(n)` is bit
`7 - k` of `n`. -/
theorem bin8_state_all (n : Nat) :
    state ((bin8 n).getD 0 0) = (if n.testBit 7 then "on" else "off") ∧
    state ((bin8 n).getD 1 0) = (if n.testBit 6 then "on" else "off") ∧
    state ((bin8 n).getD 2 0) = (if n.testBit 5 then "on" else "off") ∧
    state ((bin8 n).getD 3 0) = (if n.testBit 4 then "on" else "off") ∧
    state ((bin8 n).getD 4 0) = (if n.testBit 3 then "on" else "off") ∧
    state ((bin8 n).getD 5 0) = (if n.testBit 2 then "on" else "off") ∧
    state ((bin8 n).getD 6 0) = (if n.testBit 1 then "on" else "off") ∧
    state ((bin8 n).getD 7 0) = (if n.testBit 0 then "on" else "off") :=
  ⟨state_div_mod n 7, state_div_mod n 6, state_div_mod n 5, state_div_mod n 4,
   state_div_mod n 3, state_div_mod n 2, state_div_mod n 1, state_div_mod n 0⟩

/-- One step of `confirm_loop` when the looked-up feature already matches the
requested state: the loop exits at once with the current snapshot, consuming
nothing. -/
theorem confirm_loop_confirmed (fn : String) (state : PyVal) (st : Status)
    (retry : Nat) (trace : List Status) (v : String)
    (hv : status_get st fn = some v)
    (hm : pyEq (.str v) state = true) :
    confirm_loop fn state st retry trace = .ok (st, trace) := by
  match retry, trace with
  | 0, trace =>
    rw [confirm_loop, hv]
  | _ + 1, [] =>
    rw [confirm_loop, hv]
    simp [hm]
  | r + 1, st2 :: rest =>
    rw [confirm_loop, hv]
    simp [hm]

/-- Run of `confirm_loop` that reaches a confirming snapshot: after any
prefix `pre` of awaited snapshots in which the feature key is present but
mismatches (each consuming one retry), a snapshot `stc` whose looked-up value
matches ends the loop with exactly `stc`, provided the mismatching prefix
fits in the retry budget.  The first awaited snapshot is the head of the
whole sequence `pre ++ stc :: rest`. -/
theorem confirm_loop_first_confirm (fn : String) (state : PyVal) :
    ∀ (pre : List Status) (retry : Nat) (stc : Status) (rest : List Status)
      (v : String),
      pre.length ≤ retry →
      (∀ st ∈ pre, ∃ w, status_get st fn = some w ∧
        pyEq (.str w) state = false) →
      status_get stc fn = some v →
      pyEq (.str v) state = true →
      (match pre with
       | [] => confirm_loop fn state stc retry rest
       | p0 :: pre' => confirm_loop fn state p0 retry (pre' ++ stc :: rest)) =
        .ok (stc, rest) := by
  intro pre
  induction pre with
  | nil =>
    intro retry stc rest v _ _ hv hm
    exact confirm_loop_confirmed fn state stc retry rest v hv hm
  | cons p0 pre' ih =>
    intro retry stc rest v hk hpre hv hm
    obtain ⟨w0, hw0, hne0⟩ := hpre p0 (List.mem_cons_self p0 pre')
    cases retry with
    | zero => simp at hk
    | succ r =>
      have hk' : pre'.length ≤ r := by simpa using hk
      have hpre' : ∀ st ∈ pre', ∃ w, status_get st fn = some w ∧
          pyEq (.str w) state = false :=
        fun st hst => hpre st (List.mem_cons_of_mem p0 hst)
      cases pre' with
      | nil =>
        show confirm_loop fn state p0 (r + 1) (stc :: rest) = .ok (stc, rest)
        rw [confirm_loop, hw0]
        simp only [hne0, Bool.false_eq_true, if_false]
        exact ih r stc rest v hk' hpre' hv hm
      | cons q pre'' =>
        show confirm_loop fn state p0 (r + 1) (q :: (pre'' ++ stc :: rest)) =
          .ok (stc, rest)
        rw [confirm_loop, hw0]
        simp only [hne0, Bool.false_eq_true, if_false]
        exact ih r stc rest v hk' hpre' hv hm

/-- Reduction of `send_command_model` once the feature name resolves. -/
theorem send_command_model_eq (feature : Nat) (fn : String) (state : PyVal)
    (st0 : Status) (rest : List Status) (tExit : Nat)
    (hfn : get_feature_name feature = some fn) :
    send_command_model feature state (st0 :: rest) tExit =
      match confirm_loop fn state st0 5 rest with
      | .error e => .error e
      | .ok (st, _) => if tExit > timeout then .error "Timeout" else .ok st := by
  unfold send_command_model
  rw [hfn]

/-! ## Claims -/

/-- Claim C1, counterexample.  The claim states that validation succeeds iff
the trailing 2-byte big-endian value equals the additive sum of the frame's
bytes from the destination byte (`packet[2]`) through the last payload byte,
mod 65536.  On the concrete stream below the reader accepts the frame (the
transmitted checksum 165 equals the sum of the whole packet, 0xA5 byte
included), yet the sum from the destination byte onwards is 0, not 165; so
the claimed equivalence is false. -/
theorem c1_counterexample :
    get_packet [255, 0, 255, 165, 0, 0, 0, 0, 0, 0, 165] =
      some ([165, 0, 0, 0, 0, 0], []) ∧
    (0 * 256 + 165 : Nat) ≠
      (([165, 0, 0, 0, 0, 0] : List Nat).drop 2).sum % 65536 :=
  ⟨rfl, by decide⟩

/-- Claim C1, amended.  For every frame assembled by the reader, validation
succeeds if and only if the trailing 2-byte big-endian value equals the exact
additive sum (not reduced modulo 65536) of all assembled packet bytes — from
the reconstructed 0xA5 byte, through the byte preceding the destination, the
destination/source/command/length bytes, to the last payload byte. -/
theorem c1_validation_rule (hdr payload rest : List Nat) (c1 c2 : Nat)
    (hh : hdr.length = 5) (hp : payload.length = (165 :: hdr).getLastD 0) :
    get_packet (255 :: 0 :: 255 :: 165 :: (hdr ++ (payload ++ c1 :: c2 :: rest))) =
      if (165 :: (hdr ++ payload)).sum = c1 * 256 + c2
      then some (165 :: (hdr ++ payload), rest)
      else some ([], rest) :=
  get_packet_spec hdr payload rest c1 c2 hh hp

/-- Witness for C1's amended theorem at a concrete valid frame. -/
theorem c1_validation_rule_witness :
    get_packet [255, 0, 255, 165, 0, 15, 16, 2, 0, 0, 198] =
      some ([165, 0, 15, 16, 2, 0], []) := by
  have h := c1_validation_rule [0, 15, 16, 2, 0] [] [] 0 198 rfl rfl
  simpa using h

/-- Claim C3, counterexample.  The claim puts the main-controller address in
the source field and the remote-controller address in the destination field.
By the code's own frame convention (`read_status` reads `packet[2]` as the
destination and `packet[3]` as the source), the frame built by `send_command`
for `(POOL, "on")` carries MAIN (0x10) in the destination field and REMOTE
(0x20) in the source field — the opposite of the claim. -/
theorem c3_counterexample :
    (send_command_packet 6 (.str "on")).getD 2 0 = Ctrl.MAIN ∧
    (send_command_packet 6 (.str "on")).getD 3 0 = Ctrl.REMOTE ∧
    ¬ ((send_command_packet 6 (.str "on")).getD 2 0 = Ctrl.REMOTE ∧
       (send_command_packet 6 (.str "on")).getD 3 0 = Ctrl.MAIN) :=
  ⟨rfl, rfl, by decide⟩

/-- Claim C3, amended.  For every feature and desired state, the command
frame built by `send_command` carries the main-controller address in the
destination field (`packet[2]`) and the remote-controller address in the
source field (`packet[3]`), the fixed set-equipment-state command code 134,
declared payload length 2 with payload `[feature, 1-or-0]`, and a trailing
2-byte checksum whose big-endian split is `(sum / 256, sum % 256)` of the sum
the validator recomputes (all packet bytes before the checksum). -/
theorem c3_command_frame_layout (feature : Nat) (state : PyVal) :
    (send_command_packet feature state).length = 10 ∧
    (send_command_packet feature state).getD 2 0 = Ctrl.MAIN ∧
    (send_command_packet feature state).getD 3 0 = Ctrl.REMOTE ∧
    (send_command_packet feature state).getD 4 0 = 134 ∧
    (send_command_packet feature state).getD 5 0 = 2 ∧
    (send_command_packet feature state).getD 6 0 = feature ∧
    (send_command_packet feature state).getD 7 0 =
      (if pyEq state (.str "on") then 1 else 0) ∧
    (send_command_packet feature state).getD 8 0 =
      packet_checksum ((send_command_packet feature state).take 8) / 256 ∧
    (send_command_packet feature state).getD 9 0 =
      packet_checksum ((send_command_packet feature state).take 8) % 256 :=
  ⟨rfl, rfl, rfl, rfl, rfl, rfl, rfl, rfl, rfl⟩

/-- Claim C4 (code bug).  A validated packet of total length exactly 20
(declared payload length 14 > 8) passes the guard
`len(packet) >= WaterTemp`, yet `packet[20]` does not exist: the decoder
raises `IndexError` instead of completing and omitting the temperature. -/
theorem c4_water_temp_index_error :
    pkt4.length = 20 ∧ pkt4.getD 5 0 = 14 ∧ WaterTemp ≤ pkt4.length ∧
    pkt4.get? WaterTemp = none ∧
    read_status_decode 0 none none pkt4 Status.empty = .error "IndexError" :=
  ⟨rfl, rfl, by decide, rfl, rfl⟩

/-- Claim C9 (confirmed).  For every feature and desired state, recomputing
the encoded frame's checksum by the decoder's rule (`sum` of all packet bytes
before the trailing pair) yields exactly the big-endian value of the two
appended checksum bytes, and feeding the encoded packet back through the
frame reader returns the frame intact (validation succeeds). -/
theorem c9_roundtrip_checksum (feature : Nat) (state : PyVal) :
    packet_checksum ((send_command_packet feature state).take 8) =
      (send_command_packet feature state).getD 8 0 * 256 +
        (send_command_packet feature state).getD 9 0 ∧
    get_packet (255 :: send_command_wire feature state) =
      some ((send_command_packet feature state).take 8, []) := by
  have key : ∀ s : Nat, s = s / 256 * 256 + s % 256 := fun s => by omega
  constructor
  · exact key _
  · have hc :
        (165 :: (([31, Ctrl.MAIN, Ctrl.REMOTE, 134, 2] : List Nat) ++
          [feature, if pyEq state (.str "on") then 1 else 0])).sum =
        ([165, 31, Ctrl.MAIN, Ctrl.REMOTE, 134, 2, feature,
          if pyEq state (.str "on") then 1 else 0] : List Nat).sum / 256 * 256 +
        ([165, 31, Ctrl.MAIN, Ctrl.REMOTE, 134, 2, feature,
          if pyEq state (.str "on") then 1 else 0] : List Nat).sum % 256 :=
      key _
    have h := get_packet_spec [31, Ctrl.MAIN, Ctrl.REMOTE, 134, 2]
      [feature, if pyEq state (.str "on") then 1 else 0] []
      (([165, 31, Ctrl.MAIN, Ctrl.REMOTE, 134, 2, feature,
         if pyEq state (.str "on") then 1 else 0] : List Nat).sum / 256)
      (([165, 31, Ctrl.MAIN, Ctrl.REMOTE, 134, 2, feature,
         if pyEq state (.str "on") then 1 else 0] : List Nat).sum % 256)
      rfl rfl
    rw [if_pos hc] at h
    exact h

/-- Claim C10 (confirmed).  The state byte placed at payload position
`packet[7]` is 1 exactly when the `state` argument is the string `"on"`, and
0 for every other Python value — in particular for the integer 1 and for
`True`, which Python's `==` does not equate with `"on"`. -/
theorem c10_state_byte (feature : Nat) (s : PyVal) :
    (send_command_packet feature s).getD 7 0 = (if s = .str "on" then 1 else 0) ∧
    (send_command_packet feature (.int 1)).getD 7 0 = 0 ∧
    (send_command_packet feature (.bool true)).getD 7 0 = 0 := by
  refine ⟨?_, rfl, rfl⟩
  show (if pyEq s (.str "on") then 1 else 0) = if s = .str "on" then 1 else 0
  cases s with
  | str a => simp [pyEq]
  | int n => simp [pyEq]
  | bool b => simp [pyEq]

/-- Claim C2 (confirmed).  Whatever way the confirmation loop ends — the
target confirmed while retries remain, or the retry budget exhausted — if the
elapsed wall-clock seconds read after the loop exceed the fixed 5-second
timeout, `send_command` fails with the timeout signal: the check does not
consult the retry counter. -/
theorem c2_timeout_independent_of_retry (feature : Nat) (fn : String)
    (state : PyVal) (st0 : Status) (rest : List Status) (tExit : Nat)
    (res : Status × List Status)
    (hfn : get_feature_name feature = some fn)
    (hloop : confirm_loop fn state st0 5 rest = .ok res)
    (ht : tExit > timeout) :
    send_command_model feature state (st0 :: rest) tExit = .error "Timeout" := by
  rw [send_command_model_eq feature fn state st0 rest tExit hfn, hloop]
  obtain ⟨stf, trf⟩ := res
  simp [ht]

/-- Witness for C2: the very first snapshot already confirms the request (all
5 retries remain), yet 10 seconds have elapsed, and the call still fails with
the timeout signal. -/
theorem c2_timeout_witness :
    send_command_model 6 (.str "on") [st6, st6] 10 = .error "Timeout" :=
  c2_timeout_independent_of_retry 6 "pool" (.str "on") st6 [st6] 10
    (st6, [st6]) rfl rfl (by decide)

/-- Claim C6, counterexample.  The first awaited snapshot reports
`pool = "on"`, exactly the desired state, yet because 6 seconds have elapsed
when the post-loop clock is read, the call raises the timeout error instead
of returning the snapshot: the claim's unconditional success is false. -/
theorem c6_counterexample :
    status_get st6 "pool" = some "on" ∧
    send_command_model 6 (.str "on") [st6] 6 = .error "Timeout" :=
  ⟨rfl, rfl⟩

/-- Claim C6, amended.  If an awaited snapshot — the first, or any later one
reached after awaited snapshots whose feature key is present but mismatches,
within the 5-retry budget — reports the target feature equal to the desired
state, AND the elapsed time read after the loop does not exceed the 5-second
timeout, the call returns successfully with the full confirming snapshot
(every field of it, not just the target feature), consuming no snapshot
beyond the confirming one; in particular, with immediate confirmation
(`pre = []`) it returns within one retry. -/
theorem c6_confirmed_returns_snapshot (feature : Nat) (fn : String)
    (state : PyVal) (pre : List Status) (stc : Status) (rest : List Status)
    (tExit : Nat) (v : String)
    (hfn : get_feature_name feature = some fn)
    (hk : pre.length ≤ 5)
    (hpre : ∀ st ∈ pre, ∃ w, status_get st fn = some w ∧
      pyEq (.str w) state = false)
    (hv : status_get stc fn = some v)
    (hmatch : pyEq (.str v) state = true)
    (ht : tExit ≤ timeout) :
    send_command_model feature state (pre ++ stc :: rest) tExit = .ok stc := by
  cases pre with
  | nil =>
    rw [List.nil_append,
      send_command_model_eq feature fn state stc rest tExit hfn,
      confirm_loop_confirmed fn state stc 5 rest v hv hmatch]
    exact if_neg (Nat.not_lt.mpr ht)
  | cons p0 pre' =>
    have h : confirm_loop fn state p0 5 (pre' ++ stc :: rest) =
        .ok (stc, rest) :=
      confirm_loop_first_confirm fn state (p0 :: pre') 5 stc rest v
        hk hpre hv hmatch
    rw [List.cons_append,
      send_command_model_eq feature fn state p0 (pre' ++ stc :: rest) tExit hfn,
      h]
    exact if_neg (Nat.not_lt.mpr ht)

/-- Witness for C6's amended theorem: a `(POOL, "on")` command whose first
awaited snapshot still reports `pool = off` and whose second awaited snapshot
confirms, within the timeout, returns the full confirming multi-field
snapshot. -/
theorem c6_confirmed_witness :
    send_command_model 6 (.str "on") [st6off, st6] 3 = .ok st6 :=
  c6_confirmed_returns_snapshot 6 "pool" (.str "on") [st6off] st6 [] 3 "on"
    rfl (by decide)
    (by
      intro st hst
      rw [List.mem_singleton] at hst
      subst hst
      exact ⟨"off", rfl, rfl⟩)
    rfl rfl (by decide)

/-- Claim C7, counterexample.  A pass of `read_status` terminated by a valid
broadcast frame with payload length 0 merges nothing into the status
dictionary, yet still sets the `ready` flag: a reader returning from the
freshness wait observes the fresh flag with a snapshot identical to the one
present at its invalidation, contradicting the claim. -/
theorem c7_counterexample :
    read_status 6 0 (some Ctrl.BROADCAST) Status.empty c7stream =
      some (.ok (Status.empty, true, [])) := rfl

/-- Claim C7, amended.  The freshness flag is set at the end of every
completed `read_status` pass even when the pass merged no fields: a pass
terminated by a broadcast frame with payload length ≤ 8 returns the stored
snapshot entirely unchanged together with the flag set, so a reader may
observe the fresh flag paired with a snapshot unchanged since its
invalidation. -/
theorem c7_flag_without_merge (st : Status) (now : Nat) :
    read_status 6 now (some Ctrl.BROADCAST) st c7stream =
      some (.ok (st, true, [])) := rfl

/-- Claim C8 (confirmed).  For every length-consistent frame whose recomputed
checksum differs from the transmitted one, the reader returns `[]` (no frame
reaches the decoder), the `read_status` pass from any stored snapshot
continues exactly as if it had started on the remaining stream — the bad
frame leaves the snapshot untouched — and the next, valid broadcast frame is
accepted and decoded. -/
theorem c8_corrupt_frame_dropped (hdr payload : List Nat) (c1 c2 : Nat)
    (fuel now : Nat) (st : Status)
    (hh : hdr.length = 5) (hp : payload.length = (165 :: hdr).getLastD 0)
    (hbad : (165 :: (hdr ++ payload)).sum ≠ c1 * 256 + c2) :
    get_packet (255 :: 0 :: 255 :: 165 :: (hdr ++ (payload ++ c1 :: c2 :: c8good))) =
      some ([], c8good) ∧
    read_status (fuel + 1) now (some Ctrl.BROADCAST) st
        (255 :: 0 :: 255 :: 165 :: (hdr ++ (payload ++ c1 :: c2 :: c8good))) =
      read_status fuel now (some Ctrl.BROADCAST) st c8good ∧
    read_status 1 now (some Ctrl.BROADCAST) st c8good =
      some (.ok (c8update st now, true, [])) := by
  have h1 : get_packet
      (255 :: 0 :: 255 :: 165 :: (hdr ++ (payload ++ c1 :: c2 :: c8good))) =
      some ([], c8good) := by
    rw [get_packet_spec hdr payload c8good c1 c2 hh hp, if_neg hbad]
  refine ⟨h1, ?_, rfl⟩
  unfold read_status
  rw [read_status_loop_drop fuel (some Ctrl.BROADCAST) none none st _ c8good h1]

/-- Witness for C8 at a concrete corrupted frame (the scenario's flipped
checksum byte: 160 instead of 159). -/
theorem c8_corrupt_frame_witness :
    get_packet (255 :: 0 :: 255 :: 165 ::
        ([0, 15, 16, 2, 9] ++ ([12, 34, 161, 1, 0, 0, 0, 0, 0] ++
          1 :: 160 :: c8good))) = some ([], c8good) ∧
    read_status (0 + 1) 0 (some Ctrl.BROADCAST) Status.empty
        (255 :: 0 :: 255 :: 165 ::
          ([0, 15, 16, 2, 9] ++ ([12, 34, 161, 1, 0, 0, 0, 0, 0] ++
            1 :: 160 :: c8good))) =
      read_status 0 0 (some Ctrl.BROADCAST) Status.empty c8good ∧
    read_status 1 0 (some Ctrl.BROADCAST) Status.empty c8good =
      some (.ok (c8update Status.empty 0, true, [])) :=
  c8_corrupt_frame_dropped [0, 15, 16, 2, 9] [12, 34, 161, 1, 0, 0, 0, 0, 0]
    1 160 0 0 Status.empty rfl rfl (by decide)

/-- Claim C5 (confirmed).  Whenever the decoder succeeds on a packet whose
declared payload length exceeds 8, the feature fields are exactly the bits of
the two equipment bytes, with character `k` of the rendered 8-bit string
being bit `7 - k` of the byte: spillway is bit 7 of `equip1` (character 0),
water_feature bit 6, pool bit 5, pool_light bit 4, spa_light bit 3,
air_blower bit 2, cleaner bit 1, spa bit 0, and aux is bit 0 of `equip2`
(character 7). -/
theorem c5_bit_mapping (now : Nat) (srcC dstC : Option CtrlName)
    (packet : List Nat) (st st' : Status)
    (hlen : packet.getD 5 0 > 8)
    (hok : read_status_decode now srcC dstC packet st = .ok st') :
    st'.spillway =
      some (if (packet.getD Equip1 0).testBit 7 then "on" else "off") ∧
    st'.water_feature =
      some (if (packet.getD Equip1 0).testBit 6 then "on" else "off") ∧
    st'.pool =
      some (if (packet.getD Equip1 0).testBit 5 then "on" else "off") ∧
    st'.pool_light =
      some (if (packet.getD Equip1 0).testBit 4 then "on" else "off") ∧
    st'.spa_light =
      some (if (packet.getD Equip1 0).testBit 3 then "on" else "off") ∧
    st'.air_blower =
      some (if (packet.getD Equip1 0).testBit 2 then "on" else "off") ∧
    st'.cleaner =
      some (if (packet.getD Equip1 0).testBit 1 then "on" else "off") ∧
    st'.spa =
      some (if (packet.getD Equip1 0).testBit 0 then "on" else "off") ∧
    st'.aux =
      some (if (packet.getD Equip2 0).testBit 0 then "on" else "off") := by
  unfold read_status_decode at hok
  rw [if_pos hlen] at hok
  split at hok
  · rename_i e1 e2 hh mm he1 he2 heq3 heq4
    obtain ⟨f1, f2, f3, f4, f5, f6, f7, f8, f9⟩ :=
      decode_temps_frame_fields _ _ _ hok
    have q1 := pyIndex_ok _ _ _ he1
    have q2 := pyIndex_ok _ _ _ he2
    subst q1
    subst q2
    obtain ⟨b1, b2, b3, b4, b5, b6, b7, b8⟩ :=
      bin8_state_all (packet.getD Equip1 0)
    refine ⟨?_, ?_, ?_, ?_, ?_, ?_, ?_, ?_, ?_⟩
    · exact f1.trans (congrArg some b1)
    · exact f2.trans (congrArg some b2)
    · exact f3.trans (congrArg some b3)
    · exact f4.trans (congrArg some b4)
    · exact f5.trans (congrArg some b5)
    · exact f6.trans (congrArg some b6)
    · exact f7.trans (congrArg some b7)
    · exact f8.trans (congrArg some b8)
    · exact f9.trans
        (congrArg some (bin8_state_all (packet.getD Equip2 0)).2.2.2.2.2.2.2)
  · cases hok
  · cases hok
  · cases hok
  · cases hok

/-- Witness for C5 at the concrete packet with `equip1 = 0b10100001` and
`equip2 = 1`: spillway, pool, spa (and aux) on, all other features off. -/
theorem c5_bit_mapping_witness :
    st5.spillway =
      some (if (pkt5.getD Equip1 0).testBit 7 then "on" else "off") ∧
    st5.water_feature =
      some (if (pkt5.getD Equip1 0).testBit 6 then "on" else "off") ∧
    st5.pool =
      some (if (pkt5.getD Equip1 0).testBit 5 then "on" else "off") ∧
    st5.pool_light =
      some (if (pkt5.getD Equip1 0).testBit 4 then "on" else "off") ∧
    st5.spa_light =
      some (if (pkt5.getD Equip1 0).testBit 3 then "on" else "off") ∧
    st5.air_blower =
      some (if (pkt5.getD Equip1 0).testBit 2 then "on" else "off") ∧
    st5.cleaner =
      some (if (pkt5.getD Equip1 0).testBit 1 then "on" else "off") ∧
    st5.spa =
      some (if (pkt5.getD Equip1 0).testBit 0 then "on" else "off") ∧
    st5.aux =
      some (if (pkt5.getD Equip2 0).testBit 0 then "on" else "off") :=
  c5_bit_mapping 0 none none pkt5 Status.empty st5 (by decide) rfl

end Pentair
